import Mathlib

/-!
Verification of the glommio task header (src/src/task/header.rs): the
state-word protocol implemented by cancel, notify and register, and the
layout calculator offset_tag. The header is embedded shallowly: the state
word is a Nat (a usize value), the wake-target cell is an Option, and each
operation returns the updated header together with the list of wake events
it delivered, in order.
-/

namespace GlommioTask

/-- A wake target. The real core::task::Waker is external to the sources;
per the spec glossary it is "an opaque, clonable, comparable handle" that,
when invoked, signals its owner. We model it by an identifier; will_wake
compares identifiers, clone is the identity, and invoking a wake is recorded
as an event in the list returned by each header operation. -/
structure Waker where
  id : Nat
deriving DecidableEq, Repr

/-- Rust Waker::will_wake: true when both handles wake the same logical
target. -/
def Waker.will_wake (w c : Waker) : Bool := w.id == c.id

/-- Rust Waker::clone: the model's wakers are plain values. -/
def Waker.clone (w : Waker) : Waker := w

/-- Modelled from the spec: flag SCHEDULED of crate::task::state (module not
in the sources); spec section 3 lists the flags as disjoint single bits of one
unsigned word. -/
def SCHEDULED : Nat := 1

/-- Modelled from the spec: flag RUNNING of crate::task::state. -/
def RUNNING : Nat := 2

/-- Modelled from the spec: flag COMPLETED of crate::task::state. -/
def COMPLETED : Nat := 4

/-- Modelled from the spec: flag CLOSED of crate::task::state. -/
def CLOSED : Nat := 8

/-- Modelled from the spec: flag NOTIFYING of crate::task::state. -/
def NOTIFYING : Nat := 16

/-- Modelled from the spec: flag REGISTERING of crate::task::state. -/
def REGISTERING : Nat := 32

/-- Modelled from the spec: flag AWAITER of crate::task::state. -/
def AWAITER : Nat := 64

/-- Modelled from the spec: flag HANDLE of crate::task::state. -/
def HANDLE : Nat := 128

/-- Modelled from the spec: the reference-count unit of crate::task::state:
the reference count lives in the bits above the flags, counted in units of
this constant. -/
def REFERENCE : Nat := 256

/-- Bitwise NOT of a mask on a 64-bit usize: the source writes !MASK, which
is the xor of the mask with the all-ones 64-bit word. -/
def usizeNot (m : Nat) : Nat := (2 ^ 64 - 1) ^^^ m

/-- The header of a task (struct Header). The state word holds the flags and
the reference count; awaiter is the wake-target cell (UnsafeCell of
Option Waker). The vtable field is an opaque static pointer never inspected
or mutated by the operations verified here, so it is omitted from the model. -/
structure Header where
  state : Nat
  awaiter : Option Waker
deriving DecidableEq, Repr

/-- Header::cancel: if the task has been completed or closed it cannot be
canceled; otherwise the state is overwritten with CLOSED. The second
component is the list of wake events delivered (none). -/
def Header.cancel (h : Header) : Header × List Waker :=
  if h.state &&& (COMPLETED ||| CLOSED) ≠ 0 then
    (h, [])
  else
    ({ h with state := CLOSED }, [])

/-- Header::notify: snapshot the state, set NOTIFYING; if the snapshot had
neither NOTIFYING nor REGISTERING, take the waker out of the cell, clear
NOTIFYING and AWAITER, and wake the drained waker unless it will_wake the
supplied current waker. abort_on_panic runs its closure (a panic aborts), so
it is modelled as the call itself. -/
def Header.notify (h : Header) (current : Option Waker) : Header × List Waker :=
  let state := h.state
  let h1 : Header := { h with state := h.state ||| NOTIFYING }
  if state &&& (NOTIFYING ||| REGISTERING) = 0 then
    let waker := h1.awaiter
    let h2 : Header := { h1 with
      awaiter := none
      state := h1.state &&& (usizeNot NOTIFYING &&& usizeNot AWAITER) }
    match waker with
    | some w =>
        (h2, match current with
             | none => [w]
             | some c => if !(w.will_wake c) then [w] else [])
    | none => (h2, [])
  else
    (h1, [])

/-- Header::register: snapshot the state; if NOTIFYING is set in the
snapshot, wake the supplied waker by reference and return without storing.
Otherwise set REGISTERING, store a clone of the waker in the cell, re-test
the snapshot for NOTIFYING (draining the cell if set), commit the new state
with NOTIFYING and REGISTERING cleared and AWAITER set exactly when nothing
was drained, and finally wake any drained waker. -/
def Header.register (h : Header) (waker : Waker) : Header × List Waker :=
  let state := h.state
  if state &&& NOTIFYING ≠ 0 then
    (h, [waker])
  else
    let h1 : Header := { h with state := h.state ||| REGISTERING }
    let h2 : Header := { h1 with awaiter := some waker.clone }
    let drained : Option Waker × Header :=
      if state &&& NOTIFYING ≠ 0 then
        (h2.awaiter, { h2 with awaiter := none })
      else
        (none, h2)
    let h3 := drained.2
    let new : Nat :=
      if drained.1.isNone then
        (state &&& usizeNot NOTIFYING &&& usizeNot REGISTERING) ||| AWAITER
      else
        state &&& usizeNot NOTIFYING &&& usizeNot REGISTERING &&& usizeNot AWAITER
    let h4 : Header := { h3 with state := new }
    match drained.1 with
    | some w => (h4, [w])
    | none => (h4, [])

/-- Modelled from the spec: core::alloc::Layout, external to the sources; a
size and an alignment in bytes. -/
structure Layout where
  size : Nat
  align : Nat
deriving DecidableEq, Repr

/-- Modelled from the spec: the minimum padding that must follow a block of
the given layout so that the next address is a multiple of the given
alignment (spec section 4.4: "inserting the minimum padding required to
satisfy the payload's alignment"). -/
def padding_needed_for (l : Layout) (align : Nat) : Nat :=
  (align - l.size % align) % align

/-- Modelled from the spec: crate::task::utils::extend, not in the sources;
it reproduces core::alloc::Layout::extend: append the second layout after the
first with minimum padding for its alignment, returning the combined layout
and the byte offset of the second part (spec section 4.4). -/
def extend (l next : Layout) : Layout × Nat :=
  let pad := padding_needed_for l next.align
  let offset := l.size + pad
  (⟨offset + next.size, max l.align next.align⟩, offset)

/-- Header::offset_tag: the byte offset at which a tag of the given layout is
stored when appended after the header. The header's own layout is
platform-dependent, so it is a parameter of the model. -/
def Header.offset_tag (layout_header layout_t : Layout) : Nat :=
  (extend layout_header layout_t).2

/-- The AWAITER invariant of spec section 3: the AWAITER flag is set exactly
when the wake-target cell holds a value not yet taken by a notifier. -/
def awaiterInv (h : Header) : Prop :=
  (h.state &&& AWAITER ≠ 0) ↔ h.awaiter ≠ none

instance (h : Header) : Decidable (awaiterInv h) := by
  unfold awaiterInv; infer_instance

/-! Bit-algebra helper lemmas. -/

theorem and_xor_of_and_eq_zero {x m : Nat} (y : Nat) (h : x &&& m = 0) :
    x &&& (y ^^^ m) = x &&& y := by
  apply Nat.eq_of_testBit_eq
  intro i
  have hb := congrArg (fun z => Nat.testBit z i) h
  simp only [Nat.testBit_and, Nat.zero_testBit] at hb
  simp only [Nat.testBit_and, Nat.testBit_xor]
  cases hx : x.testBit i <;> cases hm : m.testBit i <;> simp_all

/-- Clearing bits that are not set is the identity (on a 64-bit value). -/
theorem and_usizeNot_of_and_eq_zero {x m : Nat} (hx : x < 2 ^ 64)
    (h : x &&& m = 0) : x &&& usizeNot m = x := by
  unfold usizeNot
  rw [and_xor_of_and_eq_zero _ h, Nat.and_pow_two_sub_one_of_lt_two_pow hx]

/-- If no bit of a mask is set in x, no bit of a sub-mask is either. -/
theorem and_eq_zero_of_subset {x m m2 : Nat} (h : x &&& m = 0)
    (hm : m &&& m2 = m2) : x &&& m2 = 0 := by
  rw [← hm, ← Nat.and_assoc, h, Nat.zero_and]

/-- Setting bits disjoint from a mask does not change the masked value. -/
theorem or_and_of_and_eq_zero (x : Nat) {m k : Nat} (hm : m &&& k = 0) :
    (x ||| m) &&& k = x &&& k := by
  rw [Nat.and_distrib_right, hm, Nat.or_zero]

/-- A word with a nonzero bit pattern or-ed in is nonzero. -/
theorem or_ne_zero_right (x : Nat) {m : Nat} (hm : m ≠ 0) : x ||| m ≠ 0 := by
  intro h
  apply hm
  apply Nat.eq_of_testBit_eq
  intro i
  simp only [Nat.zero_testBit]
  have hc := congrArg (fun z => Nat.testBit z i) h
  simp only [Nat.testBit_or, Nat.zero_testBit] at hc
  cases hxi : x.testBit i <;> rw [hxi] at hc <;> simp_all

theorem and_eq_zero_union {x a b : Nat} (ha : x &&& a = 0) (hb : x &&& b = 0) :
    x &&& (a ||| b) = 0 := by
  rw [Nat.and_or_distrib_left, ha, hb]
  simp

/-! Shape lemmas: the value of each operation on each branch of its
state test. -/

/-- notify when the snapshot has neither NOTIFYING nor REGISTERING: the cell
is drained, NOTIFYING and AWAITER are cleared, and the drained waker is woken
unless it will_wake the supplied current waker. -/
theorem notify_clean {h : Header} (current : Option Waker)
    (hnr : h.state &&& (NOTIFYING ||| REGISTERING) = 0) :
    h.notify current =
      ({ state := (h.state ||| NOTIFYING) &&& (usizeNot NOTIFYING &&& usizeNot AWAITER)
         awaiter := none },
       match h.awaiter with
       | some w =>
           match current with
           | none => [w]
           | some c => if !(w.will_wake c) then [w] else []
       | none => []) := by
  unfold Header.notify
  rw [if_pos hnr]
  cases h.awaiter <;> rfl

/-- notify when the snapshot has NOTIFYING or REGISTERING set: only the
NOTIFYING flag is or-ed in; nothing is drained or woken. -/
theorem notify_busy {h : Header} (current : Option Waker)
    (hnr : h.state &&& (NOTIFYING ||| REGISTERING) ≠ 0) :
    h.notify current = ({ h with state := h.state ||| NOTIFYING }, []) := by
  unfold Header.notify
  rw [if_neg hnr]

/-- register when the snapshot has NOTIFYING set: the supplied waker is woken
by reference and nothing is stored or changed. -/
theorem register_notifying {h : Header} (W : Waker)
    (hn : h.state &&& NOTIFYING ≠ 0) :
    h.register W = (h, [W]) := by
  unfold Header.register
  rw [if_pos hn]

/-- register when the snapshot has NOTIFYING clear: a clone of the waker is
stored, AWAITER is set, NOTIFYING and REGISTERING are cleared, and nothing is
woken. -/
theorem register_clean {h : Header} (W : Waker)
    (hn : h.state &&& NOTIFYING = 0) :
    h.register W =
      ({ state := (h.state &&& usizeNot NOTIFYING &&& usizeNot REGISTERING) ||| AWAITER
         awaiter := some W }, []) := by
  unfold Header.register
  rw [if_neg (by simp [hn])]
  simp [hn, Waker.clone]

/-- Masking twice with the same mask is the same as masking once. -/
theorem and_mask_idem (x k : Nat) : (x &&& k) &&& k = x &&& k := by
  rw [Nat.and_assoc, Nat.and_self]

/-- The state committed by a clean register has NOTIFYING and REGISTERING
clear, whatever the input state word was. -/
theorem register_commit_clean (s : Nat) :
    ((s &&& usizeNot NOTIFYING &&& usizeNot REGISTERING) ||| AWAITER)
      &&& (NOTIFYING ||| REGISTERING) = 0 := by
  rw [or_and_of_and_eq_zero _ (by decide : AWAITER &&& (NOTIFYING ||| REGISTERING) = 0),
      Nat.and_assoc, Nat.and_assoc,
      (by decide : usizeNot NOTIFYING
          &&& (usizeNot REGISTERING &&& (NOTIFYING ||| REGISTERING)) = 0),
      Nat.and_zero]

/-- The state committed by a clean register has REGISTERING clear. -/
theorem register_commit_reg_clear (s : Nat) :
    ((s &&& usizeNot NOTIFYING &&& usizeNot REGISTERING) ||| AWAITER)
      &&& REGISTERING = 0 := by
  rw [or_and_of_and_eq_zero _ (by decide : AWAITER &&& REGISTERING = 0),
      Nat.and_assoc, Nat.and_assoc,
      (by decide : usizeNot NOTIFYING &&& (usizeNot REGISTERING &&& REGISTERING) = 0),
      Nat.and_zero]

/-- The protocol flags of the state left by a draining notify reduce to the
REGISTERING bit of the snapshot. -/
theorem notify_drain_nr (x : Nat) :
    ((x ||| NOTIFYING) &&& (usizeNot NOTIFYING &&& usizeNot AWAITER))
      &&& (NOTIFYING ||| REGISTERING) = x &&& REGISTERING := by
  rw [Nat.and_assoc,
      (by decide : (usizeNot NOTIFYING &&& usizeNot AWAITER)
          &&& (NOTIFYING ||| REGISTERING) = REGISTERING),
      or_and_of_and_eq_zero _ (by decide : NOTIFYING &&& REGISTERING = 0)]

/-- Any state masked by the draining notify update has AWAITER clear. -/
theorem notify_drain_awaiter_clear (x : Nat) :
    (x &&& (usizeNot NOTIFYING &&& usizeNot AWAITER)) &&& AWAITER = 0 := by
  rw [Nat.and_assoc,
      (by decide : (usizeNot NOTIFYING &&& usizeNot AWAITER) &&& AWAITER = 0),
      Nat.and_zero]

/-- A state word with AWAITER or-ed in has AWAITER set. -/
theorem or_awaiter_set (x : Nat) : (x ||| AWAITER) &&& AWAITER ≠ 0 := by
  rw [Nat.and_distrib_right, (by decide : AWAITER &&& AWAITER = AWAITER)]
  exact or_ne_zero_right _ (by decide)

/-- C2: cancel leaves the whole header unchanged and wakes nothing when
COMPLETED or CLOSED is set; otherwise it sets the state word to exactly
CLOSED — every other bit, including SCHEDULED, RUNNING, AWAITER and the
reference count, becomes zero — and wakes nothing. -/
theorem C2_cancel_spec (h : Header) :
    (h.cancel).1.state
        = (if h.state &&& (COMPLETED ||| CLOSED) ≠ 0 then h.state else CLOSED)
    ∧ (h.cancel).1.awaiter = h.awaiter ∧ (h.cancel).2 = [] := by
  by_cases hc : h.state &&& (COMPLETED ||| CLOSED) ≠ 0 <;>
    simp [Header.cancel, hc]

/-- C7: for payload sizes in {0,1,3,8,16} and alignments in {1,2,4,8,16},
offset_tag returns the smallest byte offset that is at least the header
layout's size and is a multiple of the payload's alignment. The call is a
pure function of the two layouts, hence deterministic and side-effect
free. -/
theorem C7_offset_tag_least (layout_header : Layout) (tsize talign : Nat)
    (_hts : tsize ∈ [0, 1, 3, 8, 16]) (hta : talign ∈ [1, 2, 4, 8, 16]) :
    layout_header.size ≤ Header.offset_tag layout_header ⟨tsize, talign⟩
    ∧ talign ∣ Header.offset_tag layout_header ⟨tsize, talign⟩
    ∧ ∀ o2, layout_header.size ≤ o2 → talign ∣ o2 →
        Header.offset_tag layout_header ⟨tsize, talign⟩ ≤ o2 := by
  simp only [Header.offset_tag, extend, padding_needed_for]
  fin_cases hta <;>
    exact ⟨by omega, by omega, fun o2 h1 h2 => by omega⟩

/-- C7 witness: a concrete header layout of size 32 and a payload of size 3
aligned to 4 is placed at offset 32. -/
theorem C7_offset_tag_least_witness :
    (32 : Nat) ≤ Header.offset_tag ⟨32, 8⟩ ⟨3, 4⟩
    ∧ 4 ∣ Header.offset_tag ⟨32, 8⟩ ⟨3, 4⟩ :=
  ⟨(C7_offset_tag_least ⟨32, 8⟩ 3 4 (by decide) (by decide)).1,
   (C7_offset_tag_least ⟨32, 8⟩ 3 4 (by decide) (by decide)).2.1⟩

/-- C9: register re-tests the initial snapshot, so the post-store drain path
is dead: if the snapshot has NOTIFYING set, register wakes the supplied waker
immediately and changes nothing; otherwise it stores a clone of the waker,
sets AWAITER, clears NOTIFYING and REGISTERING in the committed state, and
delivers no wake — the end-of-register drained-waker wake path is never
taken in a sequential execution. -/
theorem C9_register_snapshot (h : Header) (W : Waker) :
    (h.state &&& NOTIFYING ≠ 0 → h.register W = (h, [W]))
    ∧ (h.state &&& NOTIFYING = 0 →
        (h.register W).2 = []
        ∧ (h.register W).1.awaiter = some W
        ∧ (h.register W).1.state
            = (h.state &&& usizeNot NOTIFYING &&& usizeNot REGISTERING) ||| AWAITER) := by
  constructor
  · exact fun hn => register_notifying W hn
  · intro hn
    rw [register_clean W hn]
    exact ⟨rfl, rfl, rfl⟩

/-- C9 witness: with NOTIFYING set register wakes immediately; with it clear
register delivers no wake. -/
theorem C9_register_snapshot_witness :
    Header.register ⟨16, none⟩ ⟨5⟩ = (⟨16, none⟩, [⟨5⟩])
    ∧ (Header.register ⟨0, none⟩ ⟨5⟩).2 = [] :=
  ⟨(C9_register_snapshot ⟨16, none⟩ ⟨5⟩).1 (by decide),
   ((C9_register_snapshot ⟨0, none⟩ ⟨5⟩).2 (by decide)).1⟩

/-- C10: from any state word with NOTIFYING and REGISTERING both clear, each
of cancel, notify and register returns with NOTIFYING and REGISTERING both
clear again: the protocol flags never remain set across a completed
operation. -/
theorem C10_protocol_flags (h : Header) (current : Option Waker) (W : Waker)
    (hn : h.state &&& NOTIFYING = 0) (hr : h.state &&& REGISTERING = 0) :
    (h.cancel).1.state &&& (NOTIFYING ||| REGISTERING) = 0
    ∧ (h.notify current).1.state &&& (NOTIFYING ||| REGISTERING) = 0
    ∧ (h.register W).1.state &&& (NOTIFYING ||| REGISTERING) = 0 := by
  have hnr : h.state &&& (NOTIFYING ||| REGISTERING) = 0 := and_eq_zero_union hn hr
  refine ⟨?_, ?_, ?_⟩
  · unfold Header.cancel
    split
    · exact hnr
    · show CLOSED &&& (NOTIFYING ||| REGISTERING) = 0
      decide
  · rw [notify_clean current hnr]
    show ((h.state ||| NOTIFYING) &&& (usizeNot NOTIFYING &&& usizeNot AWAITER))
        &&& (NOTIFYING ||| REGISTERING) = 0
    rw [Nat.and_assoc,
        (by decide : (usizeNot NOTIFYING &&& usizeNot AWAITER)
            &&& (NOTIFYING ||| REGISTERING) = REGISTERING),
        or_and_of_and_eq_zero _ (by decide : NOTIFYING &&& REGISTERING = 0), hr]
  · rw [register_clean W hn]
    show ((h.state &&& usizeNot NOTIFYING &&& usizeNot REGISTERING) ||| AWAITER)
        &&& (NOTIFYING ||| REGISTERING) = 0
    rw [or_and_of_and_eq_zero _ (by decide : AWAITER &&& (NOTIFYING ||| REGISTERING) = 0),
        Nat.and_assoc, Nat.and_assoc,
        (by decide : usizeNot NOTIFYING
            &&& (usizeNot REGISTERING &&& (NOTIFYING ||| REGISTERING)) = 0),
        Nat.and_zero]

/-- C10 witness: from the zero state word all three operations leave the
protocol flags clear. -/
theorem C10_protocol_flags_witness :
    (Header.cancel ⟨0, none⟩).1.state &&& (NOTIFYING ||| REGISTERING) = 0
    ∧ ((⟨0, none⟩ : Header).notify none).1.state &&& (NOTIFYING ||| REGISTERING) = 0
    ∧ ((⟨0, none⟩ : Header).register ⟨5⟩).1.state &&& (NOTIFYING ||| REGISTERING) = 0 :=
  C10_protocol_flags ⟨0, none⟩ none ⟨5⟩ (by decide) (by decide)

/-- C5: two successive notify(None) calls deliver at most one wake in total;
the second call leaves the header exactly as the first left it and delivers
no wake. -/
theorem C5_double_notify (h : Header) :
    ((h.notify none).1.notify none).1 = (h.notify none).1
    ∧ ((h.notify none).1.notify none).2 = []
    ∧ ((h.notify none).2 ++ ((h.notify none).1.notify none).2).length ≤ 1 := by
  by_cases hnr : h.state &&& (NOTIFYING ||| REGISTERING) = 0
  · have e1 := notify_clean none hnr
    have h2 : ((h.state ||| NOTIFYING) &&& (usizeNot NOTIFYING &&& usizeNot AWAITER))
        &&& (NOTIFYING ||| REGISTERING) = 0 := by
      rw [notify_drain_nr]
      exact and_eq_zero_of_subset hnr (by decide)
    have e2 := @notify_clean
      ⟨(h.state ||| NOTIFYING) &&& (usizeNot NOTIFYING &&& usizeNot AWAITER), none⟩ none h2
    rw [e1]
    dsimp only
    rw [e2]
    dsimp only
    refine ⟨?_, rfl, ?_⟩
    · rw [Header.mk.injEq]
      refine ⟨?_, rfl⟩
      rw [or_and_of_and_eq_zero _
            (by decide : NOTIFYING &&& (usizeNot NOTIFYING &&& usizeNot AWAITER) = 0),
          and_mask_idem]
    · cases h.awaiter <;> simp
  · have e1 := notify_busy none hnr
    have h2 : (h.state ||| NOTIFYING) &&& (NOTIFYING ||| REGISTERING) ≠ 0 := by
      rw [Nat.and_distrib_right,
          (by decide : NOTIFYING &&& (NOTIFYING ||| REGISTERING) = NOTIFYING)]
      exact or_ne_zero_right _ (by decide)
    have e2 := @notify_busy ⟨h.state ||| NOTIFYING, h.awaiter⟩ none h2
    rw [e1]
    dsimp only
    rw [e2]
    dsimp only
    refine ⟨?_, rfl, by simp⟩
    rw [Header.mk.injEq]
    exact ⟨by rw [Nat.or_assoc, Nat.or_self], rfl⟩

/-- C3: register(W) from a state with COMPLETED, CLOSED, NOTIFYING and
REGISTERING all clear and an empty cell, followed by notify(None), wakes W
exactly once; after both calls AWAITER is clear and the cell is empty. -/
theorem C3_register_then_notify (h : Header) (W : Waker)
    (_hcell : h.awaiter = none)
    (hnr : h.state &&& (NOTIFYING ||| REGISTERING) = 0)
    (_hcc : h.state &&& (COMPLETED ||| CLOSED) = 0) :
    (h.register W).2 ++ ((h.register W).1.notify none).2 = [W]
    ∧ ((h.register W).1.notify none).1.state &&& AWAITER = 0
    ∧ ((h.register W).1.notify none).1.awaiter = none := by
  have hn : h.state &&& NOTIFYING = 0 := and_eq_zero_of_subset hnr (by decide)
  have e1 := register_clean W hn
  have e2 := @notify_clean
    ⟨(h.state &&& usizeNot NOTIFYING &&& usizeNot REGISTERING) ||| AWAITER, some W⟩
    none (register_commit_clean h.state)
  rw [e1]
  dsimp only
  rw [e2]
  dsimp only
  exact ⟨rfl, notify_drain_awaiter_clear _, rfl⟩

/-- C3 witness: from the zero state word, register then notify wakes the
registered waker exactly once and empties the cell. -/
theorem C3_register_then_notify_witness :
    ((⟨0, none⟩ : Header).register ⟨5⟩).2
        ++ (((⟨0, none⟩ : Header).register ⟨5⟩).1.notify none).2 = [⟨5⟩]
    ∧ (((⟨0, none⟩ : Header).register ⟨5⟩).1.notify none).1.state &&& AWAITER = 0
    ∧ (((⟨0, none⟩ : Header).register ⟨5⟩).1.notify none).1.awaiter = none :=
  C3_register_then_notify ⟨0, none⟩ ⟨5⟩ (by decide) (by decide) (by decide)

/-- C4: after register(W) from a state with NOTIFYING clear, notify(Some W2)
suppresses the wake exactly when the stored waker W would wake the same
logical target as W2 (will_wake holds), wakes W exactly once when the
targets are distinct, and notify(None) always wakes W exactly once. -/
theorem C4_self_wake_suppression (h : Header) (W W2 : Waker)
    (hn : h.state &&& NOTIFYING = 0) :
    ((h.register W).1.notify (some W2)).2 = (if W.will_wake W2 then [] else [W])
    ∧ ((h.register W).1.notify none).2 = [W] := by
  have e1 := register_clean W hn
  have e2 := @notify_clean
    ⟨(h.state &&& usizeNot NOTIFYING &&& usizeNot REGISTERING) ||| AWAITER, some W⟩
    (some W2) (register_commit_clean h.state)
  have e3 := @notify_clean
    ⟨(h.state &&& usizeNot NOTIFYING &&& usizeNot REGISTERING) ||| AWAITER, some W⟩
    none (register_commit_clean h.state)
  rw [e1]
  dsimp only
  rw [e2, e3]
  dsimp only
  refine ⟨?_, rfl⟩
  cases hw : W.will_wake W2 <;> simp [hw]

/-- C4 witness: with target identifiers 1 and 1 the wake is suppressed; the
same registration notified with no current waker wakes once. -/
theorem C4_self_wake_suppression_witness :
    (((⟨0, none⟩ : Header).register ⟨1⟩).1.notify (some ⟨1⟩)).2
        = (if Waker.will_wake ⟨1⟩ ⟨1⟩ then [] else [⟨1⟩])
    ∧ (((⟨0, none⟩ : Header).register ⟨1⟩).1.notify none).2 = [⟨1⟩] :=
  C4_self_wake_suppression ⟨0, none⟩ ⟨1⟩ ⟨1⟩ (by decide)

/-- C8: a suppressed wake still consumes the registration: after register(W)
and notify(Some W2) with W.will_wake W2, nothing has been woken, the cell is
empty, AWAITER is clear, and a further notify(None) wakes nothing. -/
theorem C8_suppression_consumes (h : Header) (W W2 : Waker)
    (hn : h.state &&& NOTIFYING = 0) (hw : W.will_wake W2 = true) :
    (h.register W).2 = []
    ∧ ((h.register W).1.notify (some W2)).2 = []
    ∧ ((h.register W).1.notify (some W2)).1.awaiter = none
    ∧ ((h.register W).1.notify (some W2)).1.state &&& AWAITER = 0
    ∧ (((h.register W).1.notify (some W2)).1.notify none).2 = [] := by
  have e1 := register_clean W hn
  have e2 := @notify_clean
    ⟨(h.state &&& usizeNot NOTIFYING &&& usizeNot REGISTERING) ||| AWAITER, some W⟩
    (some W2) (register_commit_clean h.state)
  have h3 : (((h.state &&& usizeNot NOTIFYING &&& usizeNot REGISTERING) ||| AWAITER)
        ||| NOTIFYING) &&& (usizeNot NOTIFYING &&& usizeNot AWAITER)
      &&& (NOTIFYING ||| REGISTERING) = 0 := by
    rw [notify_drain_nr]
    exact register_commit_reg_clear h.state
  have e4 := @notify_clean
    ⟨(((h.state &&& usizeNot NOTIFYING &&& usizeNot REGISTERING) ||| AWAITER)
        ||| NOTIFYING) &&& (usizeNot NOTIFYING &&& usizeNot AWAITER), none⟩
    none h3
  rw [e1]
  dsimp only
  rw [e2]
  dsimp only
  rw [e4]
  dsimp only
  refine ⟨rfl, ?_, rfl, notify_drain_awaiter_clear _, rfl⟩
  rw [hw]
  rfl

/-- C8 witness: registering waker 2 and notifying with an equal current
waker wakes nothing and empties the cell. -/
theorem C8_suppression_consumes_witness :
    ((⟨0, none⟩ : Header).register ⟨2⟩).2 = []
    ∧ (((⟨0, none⟩ : Header).register ⟨2⟩).1.notify (some ⟨2⟩)).2 = []
    ∧ (((⟨0, none⟩ : Header).register ⟨2⟩).1.notify (some ⟨2⟩)).1.awaiter = none
    ∧ (((⟨0, none⟩ : Header).register ⟨2⟩).1.notify (some ⟨2⟩)).1.state &&& AWAITER = 0
    ∧ ((((⟨0, none⟩ : Header).register ⟨2⟩).1.notify (some ⟨2⟩)).1.notify none).2 = [] :=
  C8_suppression_consumes ⟨0, none⟩ ⟨2⟩ ⟨2⟩ (by decide) (by decide)

/-- C1 counterexample: from the empty header (state word 0, so NOTIFYING and
REGISTERING clear, and an empty cell), notify(None) followed by register(W)
delivers no wake at all — not exactly one — and stores W in the cell. -/
theorem C1_counterexample :
    ((Header.notify ⟨0, none⟩ none).2
        ++ ((Header.notify ⟨0, none⟩ none).1.register ⟨0⟩).2) = []
    ∧ ((Header.notify ⟨0, none⟩ none).1.register ⟨0⟩).1.awaiter = some ⟨0⟩ := by
  decide

/-- C1 amended: notify(None) called with no prior registration (empty cell,
NOTIFYING and REGISTERING clear) wakes nothing and returns with NOTIFYING
clear again, so a subsequent register(W) does not wake W; instead it stores
W in the cell and sets AWAITER. -/
theorem C1_notify_then_register (h : Header) (W : Waker)
    (hcell : h.awaiter = none)
    (hnr : h.state &&& (NOTIFYING ||| REGISTERING) = 0) :
    (h.notify none).2 = []
    ∧ (h.notify none).1.state &&& NOTIFYING = 0
    ∧ ((h.notify none).1.register W).2 = []
    ∧ ((h.notify none).1.register W).1.awaiter = some W
    ∧ ((h.notify none).1.register W).1.state &&& AWAITER ≠ 0 := by
  have e1 := notify_clean none hnr
  have h2 : ((h.state ||| NOTIFYING) &&& (usizeNot NOTIFYING &&& usizeNot AWAITER))
      &&& NOTIFYING = 0 := by
    rw [Nat.and_assoc,
        (by decide : (usizeNot NOTIFYING &&& usizeNot AWAITER) &&& NOTIFYING = 0),
        Nat.and_zero]
  have e2 := @register_clean
    ⟨(h.state ||| NOTIFYING) &&& (usizeNot NOTIFYING &&& usizeNot AWAITER), none⟩ W h2
  rw [e1, hcell]
  dsimp only
  rw [e2]
  dsimp only
  exact ⟨rfl, h2, rfl, rfl, or_awaiter_set _⟩

/-- C1 amended witness: from the zero state word the sequence stores the
waker without waking it. -/
theorem C1_notify_then_register_witness :
    ((⟨0, none⟩ : Header).notify none).2 = []
    ∧ ((⟨0, none⟩ : Header).notify none).1.state &&& NOTIFYING = 0
    ∧ (((⟨0, none⟩ : Header).notify none).1.register ⟨5⟩).2 = []
    ∧ (((⟨0, none⟩ : Header).notify none).1.register ⟨5⟩).1.awaiter = some ⟨5⟩
    ∧ (((⟨0, none⟩ : Header).notify none).1.register ⟨5⟩).1.state &&& AWAITER ≠ 0 :=
  C1_notify_then_register ⟨0, none⟩ ⟨5⟩ (by decide) (by decide)

/-- C6 counterexample: the invariant is not preserved by cancel. A header
with AWAITER set and a stored waker satisfies the invariant; cancel on it is
not a no-op (COMPLETED and CLOSED are clear), overwrites the state word with
CLOSED — clearing AWAITER — but leaves the waker in the cell. -/
theorem C6_counterexample :
    awaiterInv ⟨AWAITER, some ⟨0⟩⟩
    ∧ ¬ awaiterInv (Header.cancel ⟨AWAITER, some ⟨0⟩⟩).1 := by
  decide

/-- C6 amended: the invariant (AWAITER set iff the cell holds a value) holds
for any header with AWAITER clear and an empty cell, and is preserved by
notify and register from any state satisfying it; cancel preserves it only
when the cell is empty or the task is already COMPLETED or CLOSED. -/
theorem C6_awaiter_invariant :
    (∀ h : Header, h.state &&& AWAITER = 0 → h.awaiter = none → awaiterInv h)
    ∧ (∀ (h : Header) (current : Option Waker),
        awaiterInv h → awaiterInv (h.notify current).1)
    ∧ (∀ (h : Header) (W : Waker), awaiterInv h → awaiterInv (h.register W).1)
    ∧ (∀ h : Header, awaiterInv h →
        h.awaiter = none ∨ h.state &&& (COMPLETED ||| CLOSED) ≠ 0 →
        awaiterInv (h.cancel).1) := by
  refine ⟨?_, ?_, ?_, ?_⟩
  · intro h ha hcell
    unfold awaiterInv
    rw [ha, hcell]
    simp
  · intro h current hinv
    by_cases hnr : h.state &&& (NOTIFYING ||| REGISTERING) = 0
    · rw [notify_clean current hnr]
      show ((h.state ||| NOTIFYING) &&& (usizeNot NOTIFYING &&& usizeNot AWAITER))
          &&& AWAITER ≠ 0 ↔ (none : Option Waker) ≠ none
      rw [notify_drain_awaiter_clear]
      simp
    · rw [notify_busy current hnr]
      show (h.state ||| NOTIFYING) &&& AWAITER ≠ 0 ↔ h.awaiter ≠ none
      rw [or_and_of_and_eq_zero _ (by decide : NOTIFYING &&& AWAITER = 0)]
      exact hinv
  · intro h W hinv
    by_cases hn : h.state &&& NOTIFYING = 0
    · rw [register_clean W hn]
      show ((h.state &&& usizeNot NOTIFYING &&& usizeNot REGISTERING) ||| AWAITER)
          &&& AWAITER ≠ 0 ↔ some W ≠ none
      exact iff_of_true (or_awaiter_set _) (by simp)
    · rw [register_notifying W (by simpa using hn)]
      exact hinv
  · intro h hinv hcase
    unfold Header.cancel
    split
    · exact hinv
    · next hne =>
        rcases hcase with hnone | hterm
        · show CLOSED &&& AWAITER ≠ 0 ↔ h.awaiter ≠ none
          rw [hnone]
          decide
        · exact absurd hterm hne

/-- C6 amended witness: concrete instances of all four parts. -/
theorem C6_awaiter_invariant_witness :
    awaiterInv ⟨0, none⟩
    ∧ awaiterInv ((⟨AWAITER, some ⟨1⟩⟩ : Header).notify none).1
    ∧ awaiterInv ((⟨0, none⟩ : Header).register ⟨1⟩).1
    ∧ awaiterInv ((⟨AWAITER ||| COMPLETED, some ⟨1⟩⟩ : Header).cancel).1 :=
  ⟨C6_awaiter_invariant.1 ⟨0, none⟩ (by decide) (by decide),
   C6_awaiter_invariant.2.1 ⟨AWAITER, some ⟨1⟩⟩ none (by decide),
   C6_awaiter_invariant.2.2.1 ⟨0, none⟩ ⟨1⟩ (by decide),
   C6_awaiter_invariant.2.2.2 ⟨AWAITER ||| COMPLETED, some ⟨1⟩⟩ (by decide)
     (Or.inr (by decide))⟩

end GlommioTask
